import Mathlib

/-!
Shallow embedding of the mlpack artificial-neural-network core — the
feed-forward network container (`ffn.hpp`) and representative layers
(`linear.hpp`, `dropout_impl.hpp`, `alpha_dropout_impl.hpp`,
`add_merge_impl.hpp`) — together with theorems settling the
specification claims about it.

Matrices are embedded as functions `Fin m → Fin n → ℚ`; a call to
Armadillo's `randu` is modelled by passing the drawn random matrix
explicitly to the operation that draws it.
-/

namespace MlpackAnn

/-- Dense m×n rational matrix: the embedding of `arma::mat` at a fixed shape. -/
abbrev Mat (m n : ℕ) : Type := Fin m → Fin n → ℚ

/-- Elementwise matrix addition, the embedding of `operator+=` accumulation. -/
def matAdd {m n : ℕ} (A B : Mat m n) : Mat m n := fun i j => A i j + B i j

/-- The all-zero matrix (a default-initialized buffer at a fixed shape). -/
def matZero (m n : ℕ) : Mat m n := fun _ _ => 0

/-- Embedding of `mask.transform([&](double val) { return (val > ratio); })`
applied to a fresh uniform draw `r`: entry 1 where the draw exceeds the drop
ratio, entry 0 otherwise (the Bernoulli keep-mask). -/
def maskOf {m n : ℕ} (ratio : ℚ) (r : Mat m n) : Mat m n :=
  fun i j => if ratio < r i j then 1 else 0

/-- State of a `DropoutType` layer (`dropout_impl.hpp`), including the
`training` flag the layer inherits from its `Layer` base class. -/
structure DropoutState (m n : ℕ) where
  ratio : ℚ
  scale : ℚ
  mask : Mat m n
  training : Bool

/-- Embedding of the `DropoutType(ratio)` constructor (`dropout_impl.hpp`
lines 22–29): store the ratio and set `scale = 1 / (1 - ratio)`.  The mask
starts out as an empty matrix (embedded as all zeros at the fixed shape);
the mode flag of the `Layer` base class is not under `src/`, and per the
spec's layer contract the default mode is evaluation (`training = false`). -/
def dropoutMk (m n : ℕ) (ratio : ℚ) : DropoutState m n :=
  { ratio := ratio, scale := 1 / (1 - ratio), mask := matZero m n,
    training := false }

/-- Embedding of `DropoutType::Forward` (`dropout_impl.hpp` lines 31–49).
`r` is the `arma::randu` draw consumed in the training branch.  Returns the
output together with the updated layer state. -/
def dropoutForward {m n : ℕ} (s : DropoutState m n) (input r : Mat m n) :
    Mat m n × DropoutState m n :=
  if s.training then
    ((fun i j => input i j * maskOf s.ratio r i j * s.scale),
      { s with mask := maskOf s.ratio r })
  else
    (input, s)

/-- Embedding of `DropoutType::Backward` (`dropout_impl.hpp` lines 51–58):
`g = gy % mask * scale`, using the mask stored in the layer state. -/
def dropoutBackward {m n : ℕ} (s : DropoutState m n) (gy : Mat m n) :
    Mat m n :=
  fun i j => gy i j * s.mask i j * s.scale

/-- C4: for every Dropout layer in evaluation (non-training) mode and every
input, `Forward` is the identity function: the output equals the input
exactly and the layer state — in particular the cached mask — is untouched,
so no mask is drawn. -/
theorem dropout_eval_forward_identity {m n : ℕ} (s : DropoutState m n)
    (input r : Mat m n) (h : s.training = false) :
    dropoutForward s input r = (input, s) := by
  simp [dropoutForward, h]

/-- Witness for C4 at a concrete freshly constructed 1×1 layer and input. -/
theorem dropout_eval_forward_identity_witness :
    (dropoutMk 1 1 (1/2)).training = false ∧
      dropoutForward (dropoutMk 1 1 (1/2)) (fun _ _ => 3) (fun _ _ => 1/4) =
        ((fun _ _ => 3), dropoutMk 1 1 (1/2)) :=
  ⟨rfl, dropout_eval_forward_identity (dropoutMk 1 1 (1/2)) _ _ rfl⟩

/-- C5: for a Dropout layer in training mode whose scale is the constructor
value `1 / (1 - ratio)`, `Backward` applied to the upstream error `gy`
immediately after a `Forward` call returns exactly `gy` multiplied
elementwise by the Bernoulli keep-mask drawn in that `Forward` call and by
the scale factor `1 / (1 - ratio)`; moreover that mask is cached in the
layer state between the `Forward` and the matching `Backward`. -/
theorem dropout_backward_uses_forward_mask {m n : ℕ} (s : DropoutState m n)
    (input r gy : Mat m n) (ht : s.training = true)
    (hs : s.scale = 1 / (1 - s.ratio)) :
    dropoutBackward (dropoutForward s input r).2 gy =
        (fun i j => gy i j * maskOf s.ratio r i j * (1 / (1 - s.ratio))) ∧
      (dropoutForward s input r).2.mask = maskOf s.ratio r := by
  constructor
  · funext i j
    simp [dropoutForward, dropoutBackward, ht, hs]
  · simp [dropoutForward, ht]

/-- A concrete 1×1 Dropout layer switched to training mode, for the C5
witness. -/
def dropoutSample : DropoutState 1 1 :=
  { dropoutMk 1 1 (1/2) with training := true }

/-- Witness for C5 at the concrete training-mode layer `dropoutSample`. -/
theorem dropout_backward_uses_forward_mask_witness :
    dropoutBackward
        (dropoutForward dropoutSample (fun _ _ => 3) (fun _ _ => 3/4)).2
        (fun _ _ => 5) =
        (fun i j => (fun _ _ => (5 : ℚ)) i j *
          maskOf dropoutSample.ratio (fun _ _ => 3/4) i j *
          (1 / (1 - dropoutSample.ratio))) ∧
      (dropoutForward dropoutSample (fun _ _ => 3) (fun _ _ => 3/4)).2.mask =
        maskOf dropoutSample.ratio (fun _ _ => 3/4) :=
  dropout_backward_uses_forward_mask dropoutSample _ _ _ rfl rfl

/-- State of an `AlphaDropoutType` layer (`alpha_dropout_impl.hpp`): the
drop ratio, the replacement constant `alphaDash`, the affine correction
coefficients `a` and `b`, the cached mask and the `deterministic` mode
flag (`deterministic = true` means testing/evaluation behaviour). -/
structure AlphaDropoutState (m n : ℕ) where
  ratio : ℚ
  alphaDash : ℚ
  a : ℚ
  b : ℚ
  mask : Mat m n
  deterministic : Bool

/-- Modelled from the spec: the body of `AlphaDropoutType::Ratio` lives in
`alpha_dropout.hpp`, which is not under `src/`.  Per the spec the layer
"applies a learned-at-construction affine correction `(x·a + b)` so
mean/variance of the output match the un-dropped distribution"; for the
zero-mean unit-variance regime this mean/variance-matching correction is
`a = ((1 - ratio) * (1 + ratio * alphaDash^2))^(-1/2)` and
`b = -a * alphaDash * ratio`, with the square root embedded exactly via
`Rat.sqrt` (exact at every argument the claims below evaluate it at). -/
def alphaDropoutA (ratio alphaDash : ℚ) : ℚ :=
  1 / Rat.sqrt ((1 - ratio) * (1 + ratio * alphaDash ^ 2))

/-- Modelled from the spec (see `alphaDropoutA`): the `Ratio(r)` setter
stores the new ratio and recomputes the affine correction coefficients. -/
def alphaDropoutRatioSet {m n : ℕ} (s : AlphaDropoutState m n) (r : ℚ) :
    AlphaDropoutState m n :=
  { s with
    ratio := r
    a := alphaDropoutA r s.alphaDash
    b := -(alphaDropoutA r s.alphaDash) * s.alphaDash * r }

/-- Embedding of the `AlphaDropoutType(ratio, alphaDash)` constructor
(`alpha_dropout_impl.hpp` lines 25–34): it stores `ratio` and `alphaDash`,
initializes `deterministic` to `false`, and then calls `Ratio(ratio)` to
set the affine correction coefficients. -/
def alphaDropoutMk (m n : ℕ) (ratio alphaDash : ℚ) : AlphaDropoutState m n :=
  alphaDropoutRatioSet
    { ratio := ratio, alphaDash := alphaDash, a := 0, b := 0,
      mask := matZero m n, deterministic := false } ratio

/-- Embedding of `AlphaDropoutType::Forward` (`alpha_dropout_impl.hpp`
lines 36–55): identity in deterministic mode; otherwise draw the keep-mask
from the uniform draw `r`, replace dropped units by `alphaDash`, and apply
the affine correction `· * a + b`. -/
def alphaDropoutForward {m n : ℕ} (s : AlphaDropoutState m n)
    (input r : Mat m n) : Mat m n × AlphaDropoutState m n :=
  if s.deterministic then
    (input, s)
  else
    ((fun i j => (input i j * maskOf s.ratio r i j +
        s.alphaDash * (1 - maskOf s.ratio r i j)) * s.a + s.b),
      { s with mask := maskOf s.ratio r })

/-- Embedding of `AlphaDropoutType::Backward` (`alpha_dropout_impl.hpp`
lines 57–64): `g = gy % mask * a`. -/
def alphaDropoutBackward {m n : ℕ} (s : AlphaDropoutState m n)
    (gy : Mat m n) : Mat m n :=
  fun i j => gy i j * s.mask i j * s.a

/-- C6: an AlphaDropout layer constructed with ratio = 0 has affine
correction coefficients a = 1 and b = 0, and its `Forward` in the freshly
constructed (non-deterministic, i.e. training) state is the identity on
every input, for every uniform draw with positive entries (at ratio 0 the
keep-probability is 1, so every unit is kept). -/
theorem alpha_dropout_ratio_zero_identity {m n : ℕ} (alphaDash : ℚ)
    (input r : Mat m n) (hr : ∀ i j, 0 < r i j) :
    (alphaDropoutMk m n 0 alphaDash).a = 1 ∧
      (alphaDropoutMk m n 0 alphaDash).b = 0 ∧
      (alphaDropoutForward (alphaDropoutMk m n 0 alphaDash) input r).1 =
        input := by
  have harg : ((1 : ℚ) - 0) * (1 + 0 * alphaDash ^ 2) = 1 := by ring
  have hone : Rat.sqrt 1 = 1 := by simp
  have hsq : Rat.sqrt (((1 : ℚ) - 0) * (1 + 0 * alphaDash ^ 2)) = 1 := by
    rw [harg, hone]
  have ha : (alphaDropoutMk m n 0 alphaDash).a = 1 := by
    simp [alphaDropoutMk, alphaDropoutRatioSet, alphaDropoutA, hsq]
  have hb : (alphaDropoutMk m n 0 alphaDash).b = 0 := by
    simp [alphaDropoutMk, alphaDropoutRatioSet, alphaDropoutA]
  refine ⟨ha, hb, ?_⟩
  funext i j
  have hdet : (alphaDropoutMk m n 0 alphaDash).deterministic = false := rfl
  have hratio : (alphaDropoutMk m n 0 alphaDash).ratio = 0 := rfl
  have hmask : maskOf (alphaDropoutMk m n 0 alphaDash).ratio r i j = 1 := by
    simp [maskOf, hratio, hr i j]
  simp only [alphaDropoutForward, hdet, Bool.false_eq_true, if_false, hmask,
    ha, hb]
  ring

/-- Witness for C6 at a concrete 1×1 layer with alphaDash = 2, input 7 and
uniform draw 1/2. -/
theorem alpha_dropout_ratio_zero_identity_witness :
    (∀ i j : Fin 1, (0 : ℚ) < (fun _ _ => 1/2 : Mat 1 1) i j) ∧
      (alphaDropoutMk 1 1 0 2).a = 1 ∧
      (alphaDropoutMk 1 1 0 2).b = 0 ∧
      (alphaDropoutForward (alphaDropoutMk 1 1 0 2) (fun _ _ => 7)
        (fun _ _ => 1/2)).1 = (fun _ _ => 7) :=
  ⟨fun i j => by norm_num,
    alpha_dropout_ratio_zero_identity 2 (fun _ _ => 7) (fun _ _ => 1/2)
      (fun i j => by norm_num)⟩

/-- A freshly constructed AlphaDropout layer with ratio 3/4 and
alphaDash 2 (these values make the affine coefficients exactly rational:
a = 1, b = -3/2). -/
def alphaSample : AlphaDropoutState 1 1 := alphaDropoutMk 1 1 (3/4) 2

/-- C8: evaluation of the code at the failing input.  A freshly constructed
AlphaDropout layer has `deterministic = false`, so its `Forward` takes the
stochastic masking branch rather than behaving as in evaluation mode: on the
1×1 input 0 with uniform draw 1 (so the unit is kept) the output is
-3/2 ≠ 0, not the identity the claim requires of a fresh layer. -/
theorem alpha_dropout_fresh_not_evaluation_mode :
    alphaSample.deterministic = false ∧
      (alphaDropoutForward alphaSample (fun _ _ => 0) (fun _ _ => 1)).1 ≠
        (fun _ _ => 0) := by
  have hone : Rat.sqrt 1 = 1 := by simp
  have ha : alphaSample.a = 1 := by
    show alphaDropoutA (3/4) 2 = 1
    unfold alphaDropoutA
    rw [show ((1 : ℚ) - 3/4) * (1 + 3/4 * 2 ^ 2) = 1 by norm_num, hone]
    norm_num
  have hb : alphaSample.b = -(3/2) := by
    show -(alphaDropoutA (3/4) 2) * 2 * (3/4) = -(3/2)
    rw [show alphaDropoutA (3/4) 2 = 1 from ha]
    norm_num
  have hmask : maskOf alphaSample.ratio (fun _ _ => 1) (0 : Fin 1)
      (0 : Fin 1) = 1 := by
    rw [show alphaSample.ratio = 3/4 from rfl]
    simp only [maskOf]
    norm_num
  have hval : (alphaDropoutForward alphaSample (fun _ _ => 0)
      (fun _ _ => 1)).1 (0 : Fin 1) (0 : Fin 1) = -(3/2) := by
    simp only [alphaDropoutForward,
      show alphaSample.deterministic = false from rfl, Bool.false_eq_true,
      if_false, hmask, ha, hb,
      show alphaSample.alphaDash = 2 from rfl]
    norm_num
  refine ⟨rfl, fun h => ?_⟩
  have h00 := congrFun (congrFun h (0 : Fin 1)) (0 : Fin 1)
  rw [hval] at h00
  norm_num at h00

/-- A child layer held by an AddMerge composite: its Forward, Backward and
Gradient maps, together with its cached output-parameter, delta and gradient
buffers.  The Backward map receives the child's own output parameter (the
`input` argument the composite passes it) and the upstream error; the
Gradient map receives the composite's input and the error.  The three call
counters are ghost fields recording how often each method of the child has
been dispatched, so that non-dispatch is observable. -/
structure ChildLayer (m n : ℕ) where
  f : Mat m n → Mat m n
  bf : Mat m n → Mat m n → Mat m n
  gf : Mat m n → Mat m n → Mat m n
  outputParameter : Mat m n
  delta : Mat m n
  grad : Mat m n
  forwardCalls : ℕ
  backwardCalls : ℕ
  gradientCalls : ℕ

/-- State of an `AddMergeType` layer (`add_merge_impl.hpp`). -/
structure AddMergeState (m n : ℕ) where
  model : Bool
  run : Bool
  ownsLayers : Bool
  network : List (ChildLayer m n)

/-- Embedding of the `AddMergeType(model, run)` constructor
(`add_merge_impl.hpp` lines 23–29): `ownsLayers` is the negation of
`model`, and the child list starts empty. -/
def addMergeMk (m n : ℕ) (model run : Bool) : AddMergeState m n :=
  { model := model, run := run, ownsLayers := !model, network := [] }

/-- One iteration of `AddMergeType::Forward`'s run loop:
`network[i]->Forward(input, network[i]->OutputParameter())`. -/
def childForwardStep {m n : ℕ} (input : Mat m n) (c : ChildLayer m n) :
    ChildLayer m n :=
  { c with
    outputParameter := c.f input
    forwardCalls := c.forwardCalls + 1 }

/-- Embedding of `AddMergeType::Forward` (`add_merge_impl.hpp` lines
49–66): when `run` is set, first run every child forward into its output
parameter; then accumulate `output = network.front()->OutputParameter()`
plus the remaining children's output parameters.  The source dereferences
`network.front()` unconditionally, so its behaviour on an empty child list
is undefined; the embedding returns the zero matrix in that (for the claims
unreachable) case. -/
def addMergeForward {m n : ℕ} (s : AddMergeState m n) (input : Mat m n) :
    Mat m n × AddMergeState m n :=
  match (if s.run then s.network.map (childForwardStep input)
      else s.network) with
  | [] => (matZero m n, { s with network := [] })
  | c :: rest =>
      (rest.foldl (fun acc d => matAdd acc d.outputParameter)
        c.outputParameter,
        { s with network := c :: rest })

/-- One iteration of `AddMergeType::Backward`'s run loop:
`network[i]->Backward(network[i]->OutputParameter(), gy,
network[i]->Delta())`. -/
def childBackwardStep {m n : ℕ} (gy : Mat m n) (c : ChildLayer m n) :
    ChildLayer m n :=
  { c with
    delta := c.bf c.outputParameter gy
    backwardCalls := c.backwardCalls + 1 }

/-- Embedding of `AddMergeType::Backward` (`add_merge_impl.hpp` lines
68–90): when `run` is set, run every child's Backward into its delta and
accumulate `g` as the sum of the children's deltas; otherwise `g = gy` and
no child is touched. -/
def addMergeBackward {m n : ℕ} (s : AddMergeState m n) (gy : Mat m n) :
    Mat m n × AddMergeState m n :=
  if s.run then
    match s.network.map (childBackwardStep gy) with
    | [] => (matZero m n, { s with network := [] })
    | c :: rest =>
        (rest.foldl (fun acc d => matAdd acc d.delta) c.delta,
          { s with network := c :: rest })
  else
    (gy, s)

/-- One iteration of `AddMergeType::Gradient`'s run loop:
`network[i]->Gradient(input, error, network[i]->Gradient())`. -/
def childGradientStep {m n : ℕ} (input err : Mat m n) (c : ChildLayer m n) :
    ChildLayer m n :=
  { c with
    grad := c.gf input err
    gradientCalls := c.gradientCalls + 1 }

/-- Embedding of `AddMergeType::Gradient` (`add_merge_impl.hpp` lines
104–117): when `run` is set, dispatch to every child's Gradient; otherwise
do nothing. -/
def addMergeGradient {m n : ℕ} (s : AddMergeState m n) (input err : Mat m n) :
    AddMergeState m n :=
  if s.run then
    { s with network := s.network.map (childGradientStep input err) }
  else s

/-- The elementwise sum of the children's Forward outputs on `input`. -/
def childOutputsSum {m n : ℕ} (net : List (ChildLayer m n))
    (input : Mat m n) : Mat m n :=
  fun i j => (net.map (fun c => c.f input i j)).sum

lemma foldl_matAdd_outputParameter {m n : ℕ} (rest : List (ChildLayer m n))
    (init : Mat m n) (i : Fin m) (j : Fin n) :
    (rest.foldl (fun acc d => matAdd acc d.outputParameter) init) i j =
      init i j + (rest.map (fun d => d.outputParameter i j)).sum := by
  induction rest generalizing init with
  | nil => simp
  | cons d rest ih =>
      simp only [List.foldl_cons, List.map_cons, List.sum_cons, ih, matAdd]
      ring

/-- C7: for an AddMerge layer holding at least one child and an input on
which all children have been run forward — either because the `run` flag is
set, so `Forward` itself runs every child on the input, or because the flag
is clear and every child's output parameter already holds that child's
output on the input — the Forward output is the elementwise sum of all
children's outputs on that same input. -/
theorem add_merge_forward_sums_children {m n : ℕ} (s : AddMergeState m n)
    (input : Mat m n) (hne : s.network ≠ [])
    (hrun : s.run = true ∨
      (s.run = false ∧ ∀ c ∈ s.network, c.outputParameter = c.f input)) :
    (addMergeForward s input).1 = childOutputsSum s.network input := by
  obtain ⟨c, rest, hcr⟩ := List.exists_cons_of_ne_nil hne
  rcases hrun with hrun | ⟨hrun, hout⟩
  · funext i j
    simp only [addMergeForward, hrun, if_true, hcr, List.map_cons]
    rw [foldl_matAdd_outputParameter]
    simp only [childOutputsSum, hcr, List.map_cons, List.sum_cons,
      List.map_map, childForwardStep]
    rfl
  · funext i j
    simp only [addMergeForward, hrun, Bool.false_eq_true, if_false, hcr]
    rw [foldl_matAdd_outputParameter]
    have hc : c.outputParameter = c.f input :=
      hout c (by rw [hcr]; exact List.mem_cons_self c rest)
    have hrest : rest.map (fun d => d.outputParameter i j) =
        rest.map (fun d => d.f input i j) := by
      refine List.map_congr_left ?_
      intro d hd
      rw [hout d (by rw [hcr]; exact List.mem_cons_of_mem c hd)]
    rw [hc, hrest]
    simp [childOutputsSum, hcr]

/-- A concrete identity child layer for witnesses. -/
def childId : ChildLayer 1 1 :=
  { f := fun A => A
    bf := fun _ gy => gy
    gf := fun _ e => e
    outputParameter := matZero 1 1
    delta := matZero 1 1
    grad := matZero 1 1
    forwardCalls := 0
    backwardCalls := 0
    gradientCalls := 0 }

/-- A concrete doubling child layer for witnesses. -/
def childDouble : ChildLayer 1 1 := { childId with f := fun A => matAdd A A }

/-- A concrete AddMerge composite with two children and the `run` flag
set, for the C7 witness. -/
def addMergeSample : AddMergeState 1 1 :=
  { model := false, run := true, ownsLayers := true,
    network := [childId, childDouble] }

/-- Witness for C7 at the two-child composite `addMergeSample`. -/
theorem add_merge_forward_sums_children_witness :
    (addMergeForward addMergeSample (fun _ _ => 3)).1 =
      childOutputsSum addMergeSample.network (fun _ _ => 3) :=
  add_merge_forward_sums_children addMergeSample (fun _ _ => 3)
    (List.cons_ne_nil _ _) (Or.inl rfl)

/-- C10: for every AddMerge layer whose `run` flag is false (as set at
construction), `Backward` returns the upstream error `gy` unchanged as the
downstream error and leaves the whole state — in particular every child's
delta and Backward call counter — untouched, and `Gradient` leaves the
state — in particular every child's gradient and Gradient call counter —
untouched, so neither dispatches to any child. -/
theorem add_merge_no_run_passthrough {m n : ℕ} (s : AddMergeState m n)
    (gy input err : Mat m n) (h : s.run = false) :
    addMergeBackward s gy = (gy, s) ∧ addMergeGradient s input err = s := by
  constructor
  · simp [addMergeBackward, h]
  · simp [addMergeGradient, h]

/-- A concrete AddMerge composite with a child and the `run` flag false,
for the C10 witness. -/
def addMergeNoRunSample : AddMergeState 1 1 :=
  { model := true, run := false, ownsLayers := false, network := [childId] }

/-- Witness for C10 at the concrete composite `addMergeNoRunSample`. -/
theorem add_merge_no_run_passthrough_witness :
    addMergeBackward addMergeNoRunSample (fun _ _ => 5) =
        ((fun _ _ => 5), addMergeNoRunSample) ∧
      addMergeGradient addMergeNoRunSample (fun _ _ => 3) (fun _ _ => 5) =
        addMergeNoRunSample :=
  add_merge_no_run_passthrough addMergeNoRunSample _ _ _ rfl

/-- The state of an `FFN` network that the claims observe (`ffn.hpp` lines
484–553).  Layers and matrices are abstract type parameters `L` and `M`. -/
structure FFNState (L M : Type) where
  network : List L
  parameters : M
  inputDimensions : List ℕ
  predictors : M
  responses : M
  error : M
  training : Bool
  layerMemoryIsSet : Bool
  inputDimensionsAreSet : Bool
  totalInputSize : ℕ
  totalOutputSize : ℕ
  layerOutputs : List M
  layerDeltas : List M
  layerGradients : List M

/-- Embedding of `FFN::Add(Layer*)` (`ffn.hpp` lines 283–290): push the
layer onto the network, push a default-constructed placeholder matrix
`emptyMat` onto each of the per-layer output/delta/gradient alias lists,
and clear `inputDimensionsAreSet`. -/
def ffnAdd {L M : Type} (s : FFNState L M) (layer : L) (emptyMat : M) :
    FFNState L M :=
  { s with
    network := s.network ++ [layer]
    layerOutputs := s.layerOutputs ++ [emptyMat]
    layerDeltas := s.layerDeltas ++ [emptyMat]
    layerGradients := s.layerGradients ++ [emptyMat]
    inputDimensionsAreSet := false }

/-- Embedding of the non-const (mutable) getter `FFN::InputDimensions()`
(`ffn.hpp` line 402): it returns the dimensions and — per the source
comment there, "we don't need to invalidate any caches" — mutates
nothing. -/
def ffnInputDimensionsMutable {L M : Type} (s : FFNState L M) :
    List ℕ × FFNState L M :=
  (s.inputDimensions, s)

/-- Embedding of the const (read-only) getter `FFN::InputDimensions() const`
(`ffn.hpp` lines 404–410): it clears `inputDimensionsAreSet` as a side
effect and returns the dimensions. -/
def ffnInputDimensionsConst {L M : Type} (s : FFNState L M) :
    List ℕ × FFNState L M :=
  (s.inputDimensions, { s with inputDimensionsAreSet := false })

/-- C9: `Add` appends the layer at the end of the execution order, extends
the per-layer alias placeholder lists by one entry each, and clears the
dimensions-resolved flag (demoting the network to the uninitialized state,
so dimensions and memory aliasing are re-derived before the next pass);
every other field of the network is unchanged. -/
theorem ffn_add_appends_and_invalidates {L M : Type} (s : FFNState L M)
    (layer : L) (em : M) :
    (ffnAdd s layer em).network = s.network ++ [layer] ∧
      (ffnAdd s layer em).inputDimensionsAreSet = false ∧
      (ffnAdd s layer em).layerOutputs = s.layerOutputs ++ [em] ∧
      (ffnAdd s layer em).layerDeltas = s.layerDeltas ++ [em] ∧
      (ffnAdd s layer em).layerGradients = s.layerGradients ++ [em] ∧
      (ffnAdd s layer em).parameters = s.parameters ∧
      (ffnAdd s layer em).inputDimensions = s.inputDimensions ∧
      (ffnAdd s layer em).predictors = s.predictors ∧
      (ffnAdd s layer em).responses = s.responses ∧
      (ffnAdd s layer em).error = s.error ∧
      (ffnAdd s layer em).training = s.training ∧
      (ffnAdd s layer em).layerMemoryIsSet = s.layerMemoryIsSet ∧
      (ffnAdd s layer em).totalInputSize = s.totalInputSize ∧
      (ffnAdd s layer em).totalOutputSize = s.totalOutputSize :=
  ⟨rfl, rfl, rfl, rfl, rfl, rfl, rfl, rfl, rfl, rfl, rfl, rfl, rfl, rfl⟩

/-- A concrete network state whose dimensions-resolved flag is set, used to
refute C3 as stated. -/
def ffnSample : FFNState Unit Unit :=
  { network := []
    parameters := ()
    inputDimensions := [2]
    predictors := ()
    responses := ()
    error := ()
    training := false
    layerMemoryIsSet := true
    inputDimensionsAreSet := true
    totalInputSize := 2
    totalOutputSize := 2
    layerOutputs := []
    layerDeltas := []
    layerGradients := [] }

/-- C3 counterexample: on a network whose dimensions-resolved flag is set,
calling the mutable getter `InputDimensions()` — a pure read — leaves the
flag set: it does not become false as the claim states.  (The source
comment at the mutable getter even notes that no cache needs
invalidating; it is the const getter that clears the flag.) -/
theorem ffn_mutable_getter_does_not_invalidate :
    ffnSample.inputDimensionsAreSet = true ∧
      (ffnInputDimensionsMutable ffnSample).2.inputDimensionsAreSet ≠
        false :=
  ⟨rfl, fun h => Bool.noConfusion h⟩

/-- C3 amended: it is the const (read-only) getter `InputDimensions()` that
invalidates the cached dimensions-resolved flag as a side effect of being
called — even though the caller only reads — leaving every other field of
the network unchanged; the mutable getter returns the dimensions with no
side effect at all. -/
theorem ffn_const_getter_invalidates {L M : Type} (s : FFNState L M) :
    ffnInputDimensionsConst s =
        (s.inputDimensions, { s with inputDimensionsAreSet := false }) ∧
      ffnInputDimensionsMutable s = (s.inputDimensions, s) :=
  ⟨rfl, rfl⟩

/-- Embedding of `LinearType::ComputeOutputDimensions` (`linear.hpp` lines
131–140): `inSize = std::accumulate(inputDimensions.begin(),
inputDimensions.end(), 0)` — the sum of the axis extents — and the output
dimension descriptor is all ones except `outSize` in the first slot (the
layer flattens its input). -/
def linearComputeOutputDimensions (inputDimensions : List ℕ)
    (outSize : ℕ) : ℕ × List ℕ :=
  (inputDimensions.foldl (· + ·) 0,
    (List.replicate inputDimensions.length 1).set 0 outSize)

/-- Embedding of `LinearType::WeightSize` (`linear.hpp` lines 126–129):
`(inSize * outSize) + outSize`. -/
def linearWeightSize (inSize outSize : ℕ) : ℕ := inSize * outSize + outSize

/-- The total element count implied by an input dimension descriptor: the
product of the per-axis extents.  This is the size a layer that flattens
its input actually receives, and what the claim says the declared input
size `n` is. -/
def elemCount (dims : List ℕ) : ℕ := dims.foldl (· * ·) 1

/-- C1: evaluation of the code at the failing input.  For the input
dimension descriptor [2, 3], `ComputeOutputDimensions` computes the
declared input size `inSize = 2 + 3 = 5` (`std::accumulate` with initial
value 0 sums the extents), while the total element count the descriptor
implies is 2 · 3 = 6; so the declared input size disagrees with the
element count of a correctly shaped (2, 3) input, and the
element-count-equals-n test the claim states would reject that input. -/
theorem linear_compute_dimensions_sum_not_elemcount :
    (linearComputeOutputDimensions [2, 3] 5).1 = 5 ∧
      elemCount [2, 3] = 6 ∧
      (linearComputeOutputDimensions [2, 3] 5).1 ≠ elemCount [2, 3] := by
  refine ⟨rfl, rfl, ?_⟩
  decide

/-- Modelled from the spec: the bodies of the `FFN::Evaluate` overloads
live in `ffn_impl.hpp`, which is not under `src/` (only their declarations
in `ffn.hpp` lines 180–208 are).  Per the spec the objective is separable —
a sum of per-data-point loss terms over the stored predictors/responses —
and the windowed form `Evaluate(parameters, begin, batchSize)` runs
Forward+Backward on exactly the slice `[begin, begin + batchSize)` of the
stored data, summing the per-point losses of that slice with no extra
scaling.  `pointLoss k` is the loss of stored data point `k` under the
parameters being evaluated. -/
def ffnEvaluateWindowed (pointLoss : ℕ → ℚ) (first batchSize : ℕ) : ℚ :=
  ((List.range batchSize).map (fun k => pointLoss (first + k))).sum

/-- Modelled from the spec (see `ffnEvaluateWindowed`): the whole-dataset
`Evaluate(parameters)` is the sum of the per-point loss over all
`NumFunctions()` stored data points. -/
def ffnEvaluateWhole (pointLoss : ℕ → ℚ) (numFunctions : ℕ) : ℚ :=
  ((List.range numFunctions).map pointLoss).sum

/-- C2: windowed evaluation with begin = 0 and batchSize = N returns
exactly the same loss value as whole-dataset evaluation over the N stored
data points — no scaling or averaging discrepancy between the two forms. -/
theorem ffn_evaluate_windowed_full_eq_whole (pointLoss : ℕ → ℚ)
    (numFunctions : ℕ) :
    ffnEvaluateWindowed pointLoss 0 numFunctions =
      ffnEvaluateWhole pointLoss numFunctions := by
  simp [ffnEvaluateWindowed, ffnEvaluateWhole]

end MlpackAnn
